import Mathlib

/-!
Verification development for the CV management system
(sources: src/main.py, src/extract.py, src/google_sheets.py).

The Python code is shallowly embedded: strings are Lean strings
manipulated through their character lists, dictionaries of the seven
extraction fields become the structure CVData, the Google worksheet
becomes a list of rows (each a list of cell strings), and fallible
operations return Option/Except.  Regular-expression operations are
embedded as deterministic scanners implementing exactly the semantics
of the concrete patterns that appear in the source (leftmost match,
greedy repetition with the backtracking those specific patterns allow).
Character classes such as the \d and \s of Python regexes are modelled
over their ASCII subsets, matching the data the program manipulates.
-/

set_option maxRecDepth 100000

namespace CVMS

/-- Whitespace characters, the ASCII subset recognised by Python
str.strip and by the regex class \s. -/
def pySpace (c : Char) : Bool :=
  c = ' ' || c = '\t' || c = '\n' || c = '\r' || c = '\x0b' || c = '\x0c'

/-- Length of a Python string: number of code points. -/
def pyLen (s : String) : Nat := s.data.length

/-- Python str.strip on a character list. -/
def pyStripL (l : List Char) : List Char :=
  ((l.dropWhile pySpace).reverse.dropWhile pySpace).reverse

/-- Python str.strip. -/
def pyStrip (s : String) : String := ⟨pyStripL s.data⟩

/-- Python str.lower (ASCII). -/
def pyLower (s : String) : String := ⟨s.data.map Char.toLower⟩

/-- Worker for pyTitle: tracks whether the previous character was
alphabetic, capitalising each letter that starts a run of letters and
lowercasing the rest, exactly like Python str.title on ASCII text. -/
def pyTitleGo (prevAlpha : Bool) : List Char → List Char
  | [] => []
  | c :: rest =>
    (if c.isAlpha then (if prevAlpha then c.toLower else c.toUpper) else c)
      :: pyTitleGo c.isAlpha rest

/-- Python str.title (ASCII). -/
def pyTitle (s : String) : String := ⟨pyTitleGo false s.data⟩

/-- Split a character list at every separator satisfying p, keeping
empty pieces, like Python str.split(sep) and re.split on a character
class. -/
def splitOnPred (p : Char → Bool) : List Char → List (List Char)
  | [] => [[]]
  | c :: rest =>
    if p c then [] :: splitOnPred p rest
    else
      match splitOnPred p rest with
      | [] => [[c]]
      | g :: gs => (c :: g) :: gs

/-- Python str.split() with no argument: whitespace-separated words,
empties dropped. -/
def pyWords (l : List Char) : List (List Char) :=
  (splitOnPred pySpace l).filter (fun w => !w.isEmpty)

/-- Python substring test (needle in haystack) on character lists. -/
def pyContains (needle : List Char) : List Char → Bool
  | [] => needle.isEmpty
  | hay@(_ :: t) => needle.isPrefixOf hay || pyContains needle t

/-- Python substring test on strings. -/
def pyInS (needle hay : String) : Bool := pyContains needle.data hay.data

/-- Python str.startswith. -/
def pyStartsWith (pre s : String) : Bool := pre.data.isPrefixOf s.data

/-- The part after the first colon, the [1] component of the Python
expression line.split(chr 58, 1); callers guard with startswith so a
colon is always present. -/
def afterFirstColon : List Char → List Char
  | [] => []
  | ':' :: r => r
  | _ :: r => afterFirstColon r

/-- Split a string on one separator character, keeping empty pieces,
like Python str.split(sep). -/
def pySplitChar (c : Char) (s : String) : List String :=
  (splitOnPred (· = c) s.data).map (fun l => (⟨l⟩ : String))

/-- Python sep.join on a list of strings. -/
def pyJoin (sep : String) : List String → String
  | [] => ""
  | x :: xs => xs.foldl (fun acc y => acc ++ sep ++ y) x

/-- Membership of a string in a list, modelling Python set/list
membership by equality. -/
def memStr (x : String) : List String → Bool
  | [] => false
  | y :: ys => if x = y then true else memStr x ys

/-! ## Data model

CVData is the dictionary of the seven extraction fields that every
extraction path of the program produces (absent data is the literal
sentinel "N/A", never a missing key). -/

structure CVData where
  name : String
  email : String
  phone : String
  skills : String
  experience : String
  education : String
  location : String
deriving DecidableEq

/-! ## src/main.py : validate_cv_data (lines 62-96) -/

/-- The has_name test of validate_cv_data: truthy, not the sentinel,
and nonempty after strip. -/
def hasName (cv : CVData) : Bool :=
  cv.name != "" && cv.name != "N/A" && decide (0 < pyLen (pyStrip cv.name))

/-- The has_email test of validate_cv_data: truthy, not the sentinel,
and containing an at sign. -/
def hasEmail (cv : CVData) : Bool :=
  cv.email != "" && cv.email != "N/A" && pyInS "@" cv.email

/-- The has_phone test of validate_cv_data: truthy, not the sentinel,
and at least 10 characters after strip. -/
def hasPhone (cv : CVData) : Bool :=
  cv.phone != "" && cv.phone != "N/A" && decide (10 ≤ pyLen (pyStrip cv.phone))

/-- The missing_optional list comprehension of validate_cv_data over
the four optional fields. -/
def missingOptionalFields (cv : CVData) : List String :=
  (([("skills", cv.skills), ("experience", cv.experience),
     ("education", cv.education), ("location", cv.location)]).filter
    (fun p => p.2 == "" || p.2 == "N/A")).map Prod.fst

/-- validate_cv_data, src/main.py lines 62-96.  Returns the triple
(is_valid, missing_fields, has_optional_missing); validation failure is
a returned value, never an exception (the embedding is a total
function). -/
def validate_cv_data (cv : CVData) : Bool × List String × Bool :=
  if !hasName cv then (false, ["name"], false)
  else if !hasEmail cv && !hasPhone cv then (false, ["email or phone"], false)
  else (true, [], !(missingOptionalFields cv).isEmpty)

/-! ## src/main.py : extract_simple_cv_data (lines 218-384)

The rule-based extractor for plain chat messages.  The Python loop
mutates a dictionary and a used_lines set; the embedding folds a pure
state (CVData, used line indices) over the enumerated lines.  The email
regex of the at-sign branch is embedded below as a scanner. -/

/-- Character class of the local part of the simple email pattern. -/
def isEmailLocalChar (c : Char) : Bool :=
  c.isAlpha || c.isDigit || c = '.' || c = '_' || c = '%' || c = '+' || c = '-'

/-- Character class of the domain part of the simple email pattern. -/
def isEmailDomainChar (c : Char) : Bool :=
  c.isAlpha || c.isDigit || c = '.' || c = '-'

/-- Backtracking for the domain of the email pattern: the greedy domain
run d is shortened from length k downward until a literal dot followed
by at least two letters follows, exactly the backtracking the pattern
[a-zA-Z0-9.-]+\.[a-zA-Z]{2,} performs.  Returns the matched domain
characters and the rest of the input. -/
def emailDomainGo (d rest0 : List Char) : Nat → Option (List Char × List Char)
  | 0 => none
  | k + 1 =>
    match d.drop (k + 1) ++ rest0 with
    | '.' :: t =>
      let letters := t.takeWhile Char.isAlpha
      if 2 ≤ letters.length then
        some (d.take (k + 1) ++ '.' :: letters, t.drop letters.length)
      else emailDomainGo d rest0 k
    | _ => emailDomainGo d rest0 k

/-- Attempt of the email pattern at the head of the input; returns the
matched text and the rest. -/
def emailTryAt (s : List Char) : Option (List Char × List Char) :=
  let loc := s.takeWhile isEmailLocalChar
  if loc.isEmpty then none
  else
    match s.drop loc.length with
    | '@' :: r =>
      let d := r.takeWhile isEmailDomainChar
      if d.isEmpty then none
      else
        match emailDomainGo d (r.drop d.length) d.length with
        | some (domPart, rest) => some (loc ++ '@' :: domPart, rest)
        | none => none
    | _ => none

/-- re.search for the simple email pattern: leftmost match. -/
def reSearchEmail : List Char → Option (List Char)
  | [] => none
  | s@(_ :: t) =>
    match emailTryAt s with
    | some (m, _) => some m
    | none => reSearchEmail t

/-- One iteration of the labelled-line loop of extract_simple_cv_data
(src/main.py lines 253-327).  The if/elif chain mirrors the source,
including the unconditional continue of the bare-phone branch that is
taken for every line while the phone is still missing. -/
def simpleLineStep (st : CVData × List Nat) (i : Nat) (line : String) :
    CVData × List Nat :=
  let (cv, used) := st
  let ll := pyLower line
  if pyStartsWith "name:" ll then
    ({cv with name := pyTitle (pyStrip ⟨afterFirstColon line.data⟩)}, used ++ [i])
  else if pyStartsWith "email:" ll then
    let v := pyStrip ⟨afterFirstColon line.data⟩
    if pyInS "@" v then ({cv with email := v}, used ++ [i]) else (cv, used)
  else if pyInS "@" line && cv.email == "N/A" then
    match reSearchEmail line.data with
    | some m => ({cv with email := ⟨m⟩}, used ++ [i])
    | none => (cv, used)
  else if pyStartsWith "phone:" ll then
    let digits := (pyStrip ⟨afterFirstColon line.data⟩).data.filter Char.isDigit
    if 10 ≤ digits.length ∧ digits.length ≤ 15 then
      ({cv with phone := ⟨digits⟩}, used ++ [i])
    else (cv, used)
  else if cv.phone == "N/A" then
    let digits := line.data.filter Char.isDigit
    if 10 ≤ digits.length ∧ digits.length ≤ 15 ∧ pyLen line < 30 then
      ({cv with phone := ⟨digits⟩}, used ++ [i])
    else (cv, used)
  else if pyStartsWith "skills:" ll then
    ({cv with skills := pyStrip ⟨afterFirstColon line.data⟩}, used ++ [i])
  else if cv.skills == "N/A" && decide (2 ≤ line.data.countP (· == ',')) then
    ({cv with skills := line}, used ++ [i])
  else if pyStartsWith "experience:" ll then
    ({cv with experience := pyStrip ⟨afterFirstColon line.data⟩}, used ++ [i])
  else if pyStartsWith "education:" ll then
    ({cv with education := pyStrip ⟨afterFirstColon line.data⟩}, used ++ [i])
  else if pyStartsWith "location:" ll then
    ({cv with location := pyStrip ⟨afterFirstColon line.data⟩}, used ++ [i])
  else (cv, used)

/-- First line whose index is not yet used and that satisfies p,
modelling the fallback scans of extract_simple_cv_data. -/
def findUnused (lines : List String) (used : List Nat) (p : String → Bool) :
    Option (Nat × String) :=
  ((List.range lines.length).zip lines).find?
    (fun q => !(used.contains q.1) && p q.2)

/-- The name-fallback predicate of extract_simple_cv_data (lines
330-341): 2 to 4 words, every word alphabetic once dots are removed,
line shorter than 50 characters. -/
def simpleNameOk (line : String) : Bool :=
  let words := pyWords line.data
  decide (2 ≤ words.length ∧ words.length ≤ 4) &&
  words.all (fun w =>
    let w' := w.filter (· ≠ '.')
    !w'.isEmpty && w'.all Char.isAlpha) &&
  decide (pyLen line < 50)

/-- The skills-fallback predicate (lines 344-352): a comma and length
over 10. -/
def simpleSkillsOk (line : String) : Bool :=
  pyInS "," line && decide (10 < pyLen line)

/-- The experience-fallback predicate (lines 355-363). -/
def simpleExperienceOk (line : String) : Bool :=
  (pyInS " - " line && decide (15 < pyLen line)) ||
  (["intern", "developer", "engineer", "manager"]).any
    (fun w => pyInS w (pyLower line))

/-- Degree keywords of the education fallback (line 367). -/
def simpleDegreeKeywords : List String :=
  ["b.tech", "btech", "m.tech", "mtech", "bachelor", "master", "mba",
   "degree", "university", "college"]

/-- The education-fallback predicate (lines 366-375). -/
def simpleEducationOk (line : String) : Bool :=
  simpleDegreeKeywords.any (fun w => pyInS w (pyLower line))

/-- extract_simple_cv_data, src/main.py lines 218-384.  The Python
function returns None only when its body raises; the embedded body is
total, so the result is always some record, preserving the Option
signature of the source. -/
def extract_simple_cv_data (text : String) : Option CVData :=
  let lines := ((pySplitChar '\n' text).map pyStrip).filter (fun s => s ≠ "")
  let st0 : CVData × List Nat :=
    (⟨"N/A", "N/A", "N/A", "N/A", "N/A", "N/A", "N/A"⟩, [])
  let st1 := ((List.range lines.length).zip lines).foldl
    (fun st q => simpleLineStep st q.1 q.2) st0
  let st2 :=
    if st1.1.name = "N/A" then
      match findUnused lines st1.2 simpleNameOk with
      | some (i, line) => ({st1.1 with name := pyTitle line}, st1.2 ++ [i])
      | none => st1
    else st1
  let st3 :=
    if st2.1.skills = "N/A" then
      match findUnused lines st2.2 simpleSkillsOk with
      | some (i, line) => ({st2.1 with skills := line}, st2.2 ++ [i])
      | none => st2
    else st2
  let st4 :=
    if st3.1.experience = "N/A" then
      match findUnused lines st3.2 simpleExperienceOk with
      | some (i, line) => ({st3.1 with experience := line}, st3.2 ++ [i])
      | none => st3
    else st3
  let st5 :=
    if st4.1.education = "N/A" then
      match findUnused lines st4.2 simpleEducationOk with
      | some (i, line) => ({st4.1 with education := line}, st4.2 ++ [i])
      | none => st4
    else st4
  some st5.1

/-- The text-message branch of the webhook handler (src/main.py lines
465-471): the rule-based pass runs first and the AI extractor, passed
here as a parameter because it is a remote call, is invoked only when
the rule-based pass returned no record at all. -/
def webhookCvData (ai : String → Option CVData) (text : String) : Option CVData :=
  match extract_simple_cv_data text with
  | none => ai text
  | some r => some r

/-! ## src/extract.py : extract_name_from_email (lines 19-64)

The camel-case tokenizer is the findall of the pattern
[A-Z]?[a-z]+|[A-Z]+(?=[A-Z][a-z]|b-boundary), embedded with its
backtracking: the upper-case run of the second branch is shortened from
the greedy length until the lookahead holds. -/

/-- ASCII upper-case letter, the class [A-Z]. -/
def isUpperAZ (c : Char) : Bool := 'A' ≤ c && c ≤ 'Z'

/-- ASCII lower-case letter, the class [a-z]. -/
def isLowerAZ (c : Char) : Bool := 'a' ≤ c && c ≤ 'z'

/-- ASCII letter. -/
def isAlphaAZ (c : Char) : Bool := isUpperAZ c || isLowerAZ c

/-- Regex word character, for the word boundary of the camel-case
pattern. -/
def isWordChar (c : Char) : Bool := isAlphaAZ c || c.isDigit || c = '_'

/-- The lookahead of the second camel-case branch: an upper-case letter
followed by a lower-case one, or a word boundary after the upper-case
run. -/
def camelLookahead (after : List Char) : Bool :=
  match after with
  | a :: b :: _ => (isUpperAZ a && isLowerAZ b) || !(isWordChar a)
  | [a] => !(isWordChar a)
  | [] => true

/-- Backtracking of the upper-case run: try run lengths from the greedy
maximum downward until the lookahead holds. -/
def camelUpperGo (ups rest0 : List Char) : Nat → Option (List Char × List Char)
  | 0 => none
  | m + 1 =>
    let after := ups.drop (m + 1) ++ rest0
    if camelLookahead after then some (ups.take (m + 1), after)
    else camelUpperGo ups rest0 m

/-- Attempt of the camel-case pattern at the head of the input. -/
def camelTryAt (s : List Char) : Option (List Char × List Char) :=
  match s with
  | [] => none
  | c :: rest =>
    let branch1 : Option (List Char × List Char) :=
      if isUpperAZ c then
        let lows := rest.takeWhile isLowerAZ
        if !lows.isEmpty then some (c :: lows, rest.drop lows.length) else none
      else none
    let branch1b : Option (List Char × List Char) :=
      let lows := s.takeWhile isLowerAZ
      if !lows.isEmpty then some (lows, s.drop lows.length) else none
    let branch2 : Option (List Char × List Char) :=
      let ups := s.takeWhile isUpperAZ
      camelUpperGo ups (s.drop ups.length) ups.length
    match branch1 with
    | some r => some r
    | none => match branch1b with
      | some r => some r
      | none => branch2

/-- findall of the camel-case pattern; fuel is the input length, enough
because every match consumes at least one character. -/
def camelFindAll : Nat → List Char → List (List Char)
  | 0, _ => []
  | _ + 1, [] => []
  | f + 1, s@(_ :: t) =>
    match camelTryAt s with
    | some (m, rest) => m :: camelFindAll f rest
    | none => camelFindAll f t

/-- extract_name_from_email, src/extract.py lines 19-64: take the local
part, delete digits, underscores and hyphens, split on dots when a dot
remains and otherwise on case transitions, keep tokens of length at
least 2, title-case and join with spaces. -/
def extract_name_from_email (email : String) : String :=
  if email = "" || email = "N/A" || !(pyInS "@" email) then ""
  else
    let local_part := (pySplitChar '@' email).headD ""
    let clean_part := local_part.data.filter
      (fun c => !(c.isDigit || c = '_' || c = '-'))
    let parts : List (List Char) :=
      if pyContains ['.'] clean_part then splitOnPred (· = '.') clean_part
      else camelFindAll (clean_part.length + 1) clean_part
    let meaningful := parts.filter (fun p => 2 ≤ p.length)
    if !meaningful.isEmpty then
      pyJoin " " (meaningful.map (fun p => pyTitle ⟨p⟩))
    else ""

/-! ## src/extract.py : field cleaning inside _validate_and_clean_data

The phone block (lines 510-514) and the skills block (lines 530-543)
each act on a single field and are embedded as standalone functions. -/

/-- The phone normalizer of _validate_and_clean_data (lines 510-514):
re.sub deleting every character that is not a digit or a plus sign.
The caller applies it only when the field is not the sentinel. -/
def validateClean_phone (phone : String) : String :=
  ⟨phone.data.filter (fun c => c.isDigit || c = '+')⟩

/-- The deduplication loop of the skills block (lines 535-541): walk
the stripped comma-separated entries, keeping an entry when its
lower-casing is nonempty, not yet seen, and the entry is longer than
one character; seen lower-casings accumulate in a set, modelled as a
list probed by equality. -/
def dedupSkillsGo : List String → List String → List String
  | _, [] => []
  | seen, skill :: rest =>
    if pyLower skill ≠ "" ∧ memStr (pyLower skill) seen = false ∧ 1 < pyLen skill then
      skill :: dedupSkillsGo (pyLower skill :: seen) rest
    else dedupSkillsGo seen rest

/-- The list of entries retained by the skills block of
_validate_and_clean_data for a non-sentinel skills string: split on
commas, strip, deduplicate. -/
def validateCleanSkillsEntries (skills : String) : List String :=
  dedupSkillsGo [] ((pySplitChar ',' skills).map pyStrip)

/-- The skills block of _validate_and_clean_data (lines 530-543): the
retained entries joined with a comma and a space; the sentinel passes
through. -/
def validateClean_skills (skills : String) : String :=
  if skills = "N/A" then skills
  else pyJoin ", " (validateCleanSkillsEntries skills)

/-! ## src/extract.py : _normalize_experience_format (lines 421-458)

The function splits the experience string on pipes and commas and pipes
each piece through six re.sub calls.  Each substitution is embedded as
a scanner over the piece; the month table lookup of the date-range
substitution can raise IndexError in Python (month component above 12),
so the whole normalizer returns an Option, none modelling the raised
exception.  A month component of 00 indexes the table with -1, which in
Python is the last entry, Dec. -/

/-- Consume the next character when it equals c. -/
def expectChar (c : Char) : List Char → Option (List Char)
  | x :: r => if x = c then some r else none
  | [] => none

/-- Exactly k digit characters from the front. -/
def parseDigits (k : Nat) (l : List Char) : Option (List Char × List Char) :=
  let d := l.take k
  if d.length = k ∧ d.all Char.isDigit then some (d, l.drop k) else none

/-- Numeric value of a two-digit group. -/
def twoDigitVal (d : List Char) : Nat :=
  d.foldl (fun a c => a * 10 + (c.toNat - '0'.toNat)) 0

/-- The month table of the date-range substitution. -/
def monthAbbrevs : List String :=
  ["Jan", "Feb", "Mar", "Apr", "May", "Jun",
   "Jul", "Aug", "Sep", "Oct", "Nov", "Dec"]

/-- Python list indexing months[n-1] for a two-digit group of value n:
0 indexes -1, the last entry; 1 to 12 index normally; larger values
raise IndexError, modelled as none. -/
def monthFromTwoDigits (n : Nat) : Option (List Char) :=
  if n = 0 then some "Dec".data
  else if n ≤ 12 then some (monthAbbrevs.getD (n - 1) "").data
  else none

/-- Attempt of the first substitution pattern (strip a trailing
comma-separated capitalised location before a dash, line 436) at the
head of the input.  The replacement is empty, so only the rest after
the match is returned; the optional second capitalised word is tried
first, falling back to the variant without it when the dash lookahead
fails, mirroring the greedy optional group. -/
def sub1TryAt (s : List Char) : Option (List Char × List Char) :=
  match s with
  | ',' :: r0 =>
    let r1 := r0.dropWhile pySpace
    match r1 with
    | u :: r2 =>
      if !(isUpperAZ u) then none
      else
        let lows := r2.takeWhile isLowerAZ
        if lows.isEmpty then none
        else
          let r3 := r2.drop lows.length
          let withGroup : Option (List Char) :=
            match (r3.dropWhile pySpace) with
            | ',' :: rB =>
              match rB.dropWhile pySpace with
              | u2 :: rD =>
                if !(isUpperAZ u2) then none
                else
                  let lows2 := rD.takeWhile isLowerAZ
                  if lows2.isEmpty then none
                  else
                    let rF := (rD.drop lows2.length).dropWhile pySpace
                    if rF.head? = some '-' ∨ rF.head? = some '–' then some rF
                    else none
              | [] => none
            | _ => none
          match withGroup with
          | some rest => some ([], rest)
          | none =>
            let rG := r3.dropWhile pySpace
            if rG.head? = some '-' ∨ rG.head? = some '–' then some ([], rG)
            else none
    | [] => none
  | _ => none

/-- Attempt of the numeric date-range pattern (line 440) at the head of
the input: two digits, slash, two digits, slash, four digits, optional
spaces, hyphen, optional spaces, and the same again; the replacement
parenthesises month-table entries indexed by the second group of each
date.  An out-of-range month is the raised IndexError of the Python
lambda. -/
def sub2TryAt (s : List Char) : Option (Except Unit (List Char × List Char)) := do
  let (_g1, r1) ← parseDigits 2 s
  let r2 ← expectChar '/' r1
  let (g2, r3) ← parseDigits 2 r2
  let r4 ← expectChar '/' r3
  let (g3, r5) ← parseDigits 4 r4
  let r7 ← expectChar '-' (r5.dropWhile pySpace)
  let (_g4, r9) ← parseDigits 2 (r7.dropWhile pySpace)
  let r10 ← expectChar '/' r9
  let (g5, r11) ← parseDigits 2 r10
  let r12 ← expectChar '/' r11
  let (g6, r13) ← parseDigits 4 r12
  match monthFromTwoDigits (twoDigitVal g2), monthFromTwoDigits (twoDigitVal g5) with
  | some m1, some m2 =>
    some (.ok ('(' :: m1 ++ ' ' :: g3 ++ " - ".data ++ m2 ++ ' ' :: g6 ++ [')'], r13))
  | _, _ => some (.error ())

/-- Scanner for the date-range substitution; none is the propagated
IndexError.  Fuel is the input length; every match consumes at least
one character. -/
def sub2Go : Nat → List Char → Option (List Char)
  | 0, s => some s
  | _ + 1, [] => some []
  | f + 1, c :: rest =>
    match sub2TryAt (c :: rest) with
    | some (.ok (repl, rest')) => (sub2Go f rest').map (repl ++ ·)
    | some (.error _) => none
    | none => (sub2Go f rest).map (c :: ·)

/-- Case-insensitive month-name alternation, tried in table order;
returns the matched text verbatim and the rest. -/
def monthAltGo : List String → List Char → Option (List Char × List Char)
  | [], _ => none
  | m :: ms, s =>
    if (s.take m.data.length).map Char.toLower = m.data.map Char.toLower then
      some (s.take m.data.length, s.drop m.data.length)
    else monthAltGo ms s

/-- Attempt of the month-range pattern (line 445, IGNORECASE) at the
head of the input: month name, trailing letters, optional spaces,
hyphen, optional spaces, month name, trailing letters, optional spaces,
four digits; under IGNORECASE the class [a-z] also takes upper-case
letters.  The replacement parenthesises the shared year after each
matched month text. -/
def sub3TryAt (s : List Char) : Option (List Char × List Char) := do
  let (m1, r1) ← monthAltGo monthAbbrevs s
  let r3 := (r1.dropWhile isAlphaAZ).dropWhile pySpace
  let r4 ← expectChar '-' r3
  let (m2, r6) ← monthAltGo monthAbbrevs (r4.dropWhile pySpace)
  let r8 := (r6.dropWhile isAlphaAZ).dropWhile pySpace
  let (y, r9) ← parseDigits 4 r8
  some ('(' :: m1 ++ ' ' :: y ++ " - ".data ++ m2 ++ ' ' :: y ++ [')'], r9)

/-- Attempt of the bare year-range pattern (line 450) at the head of
the input, given the original character preceding the position for the
lookbehind: four digits, spaces, hyphen, spaces, then four digits or
the word Present, provided the match is not preceded by an opening
parenthesis nor followed by a closing one.  The matched text is
returned verbatim for the parenthesising replacement. -/
def sub4TryAt (prev : Option Char) (s : List Char) :
    Option (List Char × List Char) :=
  if prev = some '(' then none
  else
    match parseDigits 4 s with
    | none => none
    | some (y1, r1) =>
      let sp1 := r1.takeWhile pySpace
      match expectChar '-' (r1.drop sp1.length) with
      | none => none
      | some r3 =>
        let sp2 := r3.takeWhile pySpace
        let r4 := r3.drop sp2.length
        let attempt1 : Option (List Char × List Char) :=
          match parseDigits 4 r4 with
          | some (y2, r5) =>
            if r5.head? = some ')' then none
            else some (y1 ++ sp1 ++ '-' :: sp2 ++ y2, r5)
          | none => none
        match attempt1 with
        | some res => some res
        | none =>
          if "Present".data.isPrefixOf r4 then
            let r5 := r4.drop 7
            if r5.head? = some ')' then none
            else some (y1 ++ sp1 ++ '-' :: sp2 ++ "Present".data, r5)
          else none

/-- Scanner for the year-range substitution, threading the original
preceding character for the lookbehind. -/
def sub4Go : Nat → Option Char → List Char → List Char
  | 0, _, s => s
  | _ + 1, _, [] => []
  | f + 1, prev, c :: rest =>
    match sub4TryAt prev (c :: rest) with
    | some (consumed, rest') =>
      ('(' :: consumed ++ [')']) ++ sub4Go f consumed.getLast? rest'
    | none => c :: sub4Go f (some c) rest

/-- Attempt of the dash-normalising pattern (line 453) at the head of
the input: optional spaces, an en dash or pipe, optional spaces,
replaced by a spaced hyphen. -/
def sub5TryAt (s : List Char) : Option (List Char × List Char) :=
  let sp := s.takeWhile pySpace
  match s.drop sp.length with
  | c :: r2 =>
    if c = '–' ∨ c = '|' then some (" - ".data, r2.dropWhile pySpace)
    else none
  | [] => none

/-- Attempt of the whitespace-collapsing pattern (line 454) at the head
of the input. -/
def sub6TryAt (s : List Char) : Option (List Char × List Char) :=
  match s with
  | c :: _ =>
    if pySpace c then some ([' '], s.dropWhile pySpace) else none
  | [] => none

/-- Generic re.sub scanner for a total substitution: try a match at
every position from the left, emitting the replacement and resuming
after the match.  Fuel is the input length; every embedded pattern
consumes at least one character per match. -/
def reSubGo (tryAt : List Char → Option (List Char × List Char)) :
    Nat → List Char → List Char
  | 0, s => s
  | _ + 1, [] => []
  | f + 1, c :: rest =>
    match tryAt (c :: rest) with
    | some (repl, rest') => repl ++ reSubGo tryAt f rest'
    | none => c :: reSubGo tryAt f rest

/-- One position of the loop body of _normalize_experience_format
(lines 430-456): the six substitutions in order, then strip. -/
def normalizePos (pos : List Char) : Option (List Char) := do
  let p1 := reSubGo sub1TryAt pos.length pos
  let p2 ← sub2Go p1.length p1
  let p3 := reSubGo sub3TryAt p2.length p2
  let p4 := sub4Go p3.length none p3
  let p5 := reSubGo sub5TryAt p4.length p4
  let p6 := reSubGo sub6TryAt p5.length p5
  some (pyStripL p6)

/-- Fold over the split positions: stripped, empty positions skipped,
each surviving position normalized. -/
def normalizePositions : List (List Char) → Option (List String)
  | [] => some []
  | p :: rest =>
    let p' := pyStripL p
    if p'.isEmpty then normalizePositions rest
    else do
      let n ← normalizePos p'
      let ns ← normalizePositions rest
      some ((⟨n⟩ : String) :: ns)

/-- _normalize_experience_format, src/extract.py lines 421-458: the
sentinel and the empty string pass through; otherwise split on pipes
and commas, normalize each position, and rejoin with a comma and a
space.  none models the IndexError the month lookup can raise. -/
def normalize_experience_format (experience : String) : Option String :=
  if experience = "N/A" ∨ experience = "" then some experience
  else
    (normalizePositions (splitOnPred (fun c => c = '|' || c = ',') experience.data)).map
      (pyJoin ", ")

/-! ## src/extract.py : the skills extraction of _fallback_extraction
(lines 643-693)

This part of the fallback depends only on the lines of the text: a
section flag toggled by header keywords, bullet stripping and separator
splitting inside the section, and a scan of every line for a fixed
technology vocabulary.  The Python set of skills is modelled as a list
with first-insertion order; the sort is stable on the lower-cased key,
as Python sorted is. -/

/-- Section headers that switch skills collection on (line 660). -/
def skillsSectionHeaders : List String :=
  ["skills", "technical skills", "core competencies", "expertise",
   "technologies", "tools", "proficiencies"]

/-- Section headers that switch skills collection off (line 665). -/
def skillsExitHeaders : List String :=
  ["experience", "education", "projects", "certifications",
   "work history", "employment"]

/-- The fixed technology vocabulary (lines 647-655). -/
def techKeywords : List String :=
  ["python", "java", "javascript", "typescript", "react", "angular", "vue",
   "node", "express", "django", "flask", "spring", "aws", "azure", "gcp",
   "docker", "kubernetes", "jenkins", "git", "mongodb", "mysql", "postgresql",
   "redis", "elasticsearch", "html", "css", "sass", "bootstrap", "tailwind",
   "api", "rest", "graphql", "sql", "nosql", "agile", "scrum", "jira",
   "tensorflow", "pytorch", "pandas", "numpy", "scikit", "opencv", "nltk",
   "linux", "ubuntu", "bash", "shell", "powershell", "ci/cd", "devops"]

/-- Bullet glyphs removed before splitting (line 670). -/
def bulletChars : List Char := ['•', '▪', '▫', '◦', '●', '○', '✓', '■', '-', '*']

/-- The separators tried in order on a section line (line 671). -/
def sepList : List Char := [',', '|', ';', '/', ':']

/-- Set insertion preserving first-seen order, modelling
skills_set.add. -/
def addSkill (set : List String) (x : String) : List String :=
  if memStr x set then set else set ++ [x]

/-- First case-insensitive occurrence of the keyword in the line,
returned verbatim, modelling the IGNORECASE search of the escaped
keyword (lines 686-689). -/
def ciFindFirst (kw : List Char) : List Char → Option (List Char)
  | [] => if kw.isEmpty then some [] else none
  | s@(_ :: t) =>
    if (s.take kw.length).map Char.toLower = kw.map Char.toLower ∧ kw.length ≤ s.length then
      some (s.take kw.length)
    else ciFindFirst kw t

/-- Collection from one line inside the skills section (lines 669-682):
strip bullets, split on the first separator present, keep stripped
tokens of length 2 to 49; with no separator keep the whole stripped
line when of length 3 to 49. -/
def collectFromLine (set : List String) (line : String) : List String :=
  let cleaned : List Char := line.data.filter (fun c => !(bulletChars.contains c))
  match sepList.find? (fun sep => cleaned.contains sep) with
  | some sep =>
    (splitOnPred (· = sep) cleaned).foldl
      (fun s part =>
        let skill := pyStripL part
        if !skill.isEmpty ∧ 1 < skill.length ∧ skill.length < 50 then
          addSkill s ⟨skill⟩
        else s)
      set
  | none =>
    let skill := pyStripL cleaned
    if !skill.isEmpty ∧ 2 < skill.length ∧ skill.length < 50 then addSkill set ⟨skill⟩
    else set

/-- One line of the skills loop of _fallback_extraction (lines
657-689): a short line holding a skills header turns the section on and
skips the rest of the body; a short exit header while inside turns it
off; a nonempty line inside the section contributes tokens; every line
reaching the end of the body contributes verbatim matches of the
technology vocabulary. -/
def fallbackSkillsLine (st : List String × Bool) (line : String) :
    List String × Bool :=
  let set0 := st.1
  let inSk0 := st.2
  let ll := pyStrip (pyLower line)
  if skillsSectionHeaders.any (fun h => pyInS h ll) && decide (pyLen ll < 50) then
    (set0, true)
  else
    let inSk1 :=
      if inSk0 && skillsExitHeaders.any (fun h => pyInS h ll) && decide (pyLen ll < 50) then
        false
      else inSk0
    let set1 :=
      if inSk1 && decide (pyStrip line ≠ "") then collectFromLine set0 line else set0
    let set2 := techKeywords.foldl
      (fun s kw =>
        if pyInS kw ll then
          match ciFindFirst kw.data line.data with
          | some m => addSkill s ⟨m⟩
          | none => s
        else s)
      set1
    (set2, inSk1)

/-- Strict lexicographic comparison of character lists by code point,
the comparison Python string less-than performs. -/
def listLtChars : List Char → List Char → Bool
  | [], [] => false
  | [], _ :: _ => true
  | _ :: _, [] => false
  | a :: as, b :: bs =>
    if a.toNat < b.toNat then true
    else if b.toNat < a.toNat then false
    else listLtChars as bs

/-- Stable insertion into a list sorted by the lower-cased key, placing
equal keys after the ones already present. -/
def insLower (x : String) : List String → List String
  | [] => [x]
  | y :: ys =>
    if listLtChars (pyLower x).data (pyLower y).data then x :: y :: ys
    else y :: insLower x ys

/-- Stable sort by the lower-cased key, modelling sorted with key
str.lower. -/
def stableSortByLower (l : List String) : List String :=
  l.foldl (fun acc x => insLower x acc) []

/-- The skills field produced by _fallback_extraction (lines 643-693):
fold the per-line collector over the raw lines of the text, then join
the sorted set, or keep the sentinel when nothing was found. -/
def fallbackSkills (cv_text : String) : String :=
  let lines := pySplitChar '\n' cv_text
  let st := lines.foldl fallbackSkillsLine ([], false)
  if !st.1.isEmpty then pyJoin ", " (stableSortByLower st.1) else "N/A"

/-! ## src/google_sheets.py : check_duplicate, delete_row, append_cv_data

The worksheet is a list of rows, each a list of cell strings, row one
being the header.  Reading all values can raise inside the Google API,
so check_duplicate receives the read result as an Except value; its
except-branch returns the not-duplicate triple.  append_cv_data is a
state transition on the sheet; the duplicate check inside it uses the
same Except-modelled read. -/

/-- The sheet header row (HEADERS, src/google_sheets.py lines 27-38). -/
def sheetHeaders : List String :=
  ["Timestamp", "Name", "Email", "Phone", "Skills", "Experience",
   "Education", "Location", "WhatsApp Number", "Status"]

/-- Digits-only cleaning of a phone for comparison (re.sub removing
every non-digit, lines 141-142). -/
def digitsOnly (s : String) : String := ⟨s.data.filter Char.isDigit⟩

/-- The scan of check_duplicate over the rows after the header, with
the running 1-based row index starting at 2 (lines 132-173): rows with
fewer than four cells are skipped; the email match compares lower-cased
stripped stored email with the lower-cased input when neither is the
sentinel; the phone match compares digit-stripped phones when both are
nonempty and neither is the literal na.  On a match the row is
returned padded to ten fields with the sentinel. -/
def checkDupGo : List (List String) → Nat → String → String →
    Bool × Option Nat × Option (List String)
  | [], _, _, _ => (false, none, none)
  | row :: rest, idx, email, phone =>
    if row.length < 4 then checkDupGo rest (idx + 1) email phone
    else
      let existing_email := if 2 < row.length then pyLower (pyStrip (row.getD 2 "")) else ""
      let existing_phone := if 3 < row.length then pyStrip (row.getD 3 "") else ""
      let cep := digitsOnly existing_phone
      let cip := digitsOnly phone
      let email_match :=
        pyLower email ≠ "n/a" ∧ existing_email ≠ "n/a" ∧ existing_email = pyLower email
      let phone_match :=
        cip ≠ "" ∧ cip ≠ "na" ∧ cep ≠ "" ∧ cep ≠ "na" ∧ cep = cip
      if email_match ∨ phone_match then
        (true, some idx, some ((List.range 10).map (fun k => row.getD k "N/A")))
      else checkDupGo rest (idx + 1) email phone

/-- check_duplicate, src/google_sheets.py lines 114-181: scan the rows
read from the worksheet; any exception while reading (the error case of
the argument) yields the not-duplicate triple (lines 179-181). -/
def check_duplicate (readRows : Except Unit (List (List String)))
    (email phone : String) : Bool × Option Nat × Option (List String) :=
  match readRows with
  | .error _ => (false, none, none)
  | .ok all_values => checkDupGo (all_values.drop 1) 2 email phone

/-- delete_row, src/google_sheets.py lines 183-199: remove the row with
the given 1-based number. -/
def delete_row (sheet : List (List String)) (rowNumber : Nat) : List (List String) :=
  sheet.eraseIdx (rowNumber - 1)

/-- Removal of single and double quote characters, the two chained
str.replace calls of append_cv_data. -/
def removeQuotes (s : String) : String :=
  ⟨s.data.filter (fun c => c ≠ '\'' ∧ c ≠ '"')⟩

/-- Keep digits and plus signs, the re.sub of append_cv_data. -/
def keepDigitsPlus (s : String) : String :=
  ⟨s.data.filter (fun c => c.isDigit || c = '+')⟩

/-- When a plus is present, move a single plus to the front and delete
the others (lines 228-229 and 236-237). -/
def collapsePlus (s : String) : String :=
  if pyInS "+" s then ⟨'+' :: s.data.filter (· ≠ '+')⟩ else s

/-- Python str.replace with an empty replacement: delete every
occurrence of the pattern.  Fuel is the input length. -/
def deleteAllGo (pat : List Char) : Nat → List Char → List Char
  | 0, s => s
  | _ + 1, [] => []
  | f + 1, s@(c :: t) =>
    if pat.isPrefixOf s ∧ !pat.isEmpty then deleteAllGo pat f (s.drop pat.length)
    else c :: deleteAllGo pat f t

/-- The WhatsApp-number cleaning of append_cv_data (lines 221-229). -/
def cleanWhatsappNumber (phoneNumber : String) : String :=
  let w0 := pyStrip phoneNumber
  let w1 :=
    if pyStartsWith "whatsapp:" w0 then
      pyStrip ⟨deleteAllGo "whatsapp:".data w0.data.length w0.data⟩
    else w0
  collapsePlus (keepDigitsPlus (removeQuotes w1))

/-- The phone cleaning of append_cv_data (lines 232-237): applied only
when the field is not the sentinel. -/
def cleanAppendPhone (phone : String) : String :=
  if phone ≠ "N/A" then collapsePlus (keepDigitsPlus (removeQuotes (pyStrip phone)))
  else phone

/-- append_cv_data, src/google_sheets.py lines 201-272: clean the
timestamp, the WhatsApp number and the phone, run the duplicate check
(whose worksheet read is the Except argument), build the row with
Status Updated on a duplicate and New otherwise, delete the old row
when a duplicate with a truthy row number was found, append the new
row, and return the new sheet together with the pair of the new row
number and the update flag. -/
def append_cv_data (dupRead : Except Unit (List (List String)))
    (sheet : List (List String)) (cv : CVData)
    (phoneNumber submissionTimestamp : String) :
    List (List String) × (Nat × Bool) :=
  let timestamp := removeQuotes (pyStrip submissionTimestamp)
  let whatsapp := cleanWhatsappNumber phoneNumber
  let phone := cleanAppendPhone cv.phone
  let email := cv.email
  let dup := check_duplicate dupRead email phone
  let is_duplicate := dup.1
  let old_row_number := dup.2.1
  let row_data : List String :=
    [timestamp, cv.name, email, phone, cv.skills, cv.experience,
     cv.education, cv.location, whatsapp,
     if is_duplicate then "Updated" else "New"]
  let sheet1 :=
    if is_duplicate && (match old_row_number with
                        | some n => n != 0
                        | none => false) then
      delete_row sheet (old_row_number.getD 1)
    else sheet
  let sheet2 := sheet1 ++ [row_data]
  (sheet2, (sheet2.length, is_duplicate))

/-! ## Definitions taken from the words of the specification

These are not translations of the source; they state the format the
specification claims, for comparison with the behaviour of the code. -/

/-- Modelled from the spec: the claimed canonical phone shape, the
regular expression anchored-plus-digits (one optional leading plus,
then at least one digit, nothing else). -/
def specPhonePattern (s : String) : Bool :=
  match s.data with
  | '+' :: rest => !rest.isEmpty && rest.all Char.isDigit
  | l => !l.isEmpty && l.all Char.isDigit

/-! ## Concrete records and sheets used by the theorems -/

/-- The record the simple extractor produces for the message hello:
every field is the sentinel. -/
def helloRecord : CVData := ⟨"N/A", "N/A", "N/A", "N/A", "N/A", "N/A", "N/A"⟩

/-- A marker record distinguishable from every sentinel record, used to
observe whether the AI extractor result is consulted. -/
def aiMarker : CVData := ⟨"Ai Marker", "N/A", "N/A", "N/A", "N/A", "N/A", "N/A"⟩

/-- The record the simple extractor actually produces for the
three-line chat message of the end-to-end example. -/
def ashaRecord : CVData :=
  ⟨"Asha Rao", "asha.rao@example.com", "N/A",
   "Skills: Python, SQL, Communication", "N/A", "N/A", "N/A"⟩

/-- A stored sheet holding the header and one row for the identity
a@x.com. -/
def storedSheet : List (List String) :=
  [sheetHeaders,
   ["2024-01-01T00:00:00", "Old Name", "a@x.com", "1112223333",
    "Old Skills", "Old Exp", "Old Edu", "Old Loc", "+10000000000", "New"]]

/-- The new submission of the duplicate-resolution scenario: same email
as the stored row up to case, different phone. -/
def newSubmission : CVData :=
  ⟨"New Name", "A@X.COM", "9998887777", "Sk", "Ex", "Ed", "Loc"⟩

/-! ## Helper lemmas -/

/-- Dropping a matching run never lengthens a list. -/
theorem length_dropWhile_le (p : Char → Bool) (l : List Char) :
    (l.dropWhile p).length ≤ l.length := by
  induction l with
  | nil => simp
  | cons a t ih =>
    by_cases h : p a
    · simp only [List.dropWhile_cons, h, if_true]
      exact Nat.le_succ_of_le ih
    · simp [List.dropWhile_cons, h]

/-- Stripping is nonexpansive on length. -/
theorem pyStripL_length_le (l : List Char) : (pyStripL l).length ≤ l.length := by
  unfold pyStripL
  calc ((l.dropWhile pySpace).reverse.dropWhile pySpace).reverse.length
      = ((l.dropWhile pySpace).reverse.dropWhile pySpace).length := List.length_reverse _
    _ ≤ (l.dropWhile pySpace).reverse.length := length_dropWhile_le _ _
    _ = (l.dropWhile pySpace).length := List.length_reverse _
    _ ≤ l.length := length_dropWhile_le _ _

/-- A membership probe that fails on a cons fails on the head and on
the tail. -/
theorem memStr_cons_false {x y : String} {ys : List String}
    (h : memStr x (y :: ys) = false) : x ≠ y ∧ memStr x ys = false := by
  by_cases hxy : x = y
  · simp [memStr, hxy] at h
  · simpa [memStr, hxy] using h

/-- Every entry emitted by the deduplication loop has a lower-casing
outside the seen set the loop started from. -/
theorem dedupSkillsGo_not_seen (l : List String) : ∀ (seen : List String)
    (x : String), x ∈ dedupSkillsGo seen l → memStr (pyLower x) seen = false := by
  induction l with
  | nil => intro seen x hx; simp [dedupSkillsGo] at hx
  | cons skill rest ih =>
    intro seen x hx
    by_cases h : pyLower skill ≠ "" ∧ memStr (pyLower skill) seen = false ∧
        1 < pyLen skill
    · rw [dedupSkillsGo, if_pos h] at hx
      rcases List.mem_cons.mp hx with rfl | hx'
      · exact h.2.1
      · exact (memStr_cons_false (ih _ _ hx')).2
    · rw [dedupSkillsGo, if_neg h] at hx
      exact ih _ _ hx

/-- The deduplication loop emits entries that are pairwise distinct
under lower-casing. -/
theorem dedupSkillsGo_pairwise (l : List String) : ∀ seen : List String,
    (dedupSkillsGo seen l).Pairwise (fun a b => pyLower a ≠ pyLower b) := by
  induction l with
  | nil => intro seen; simp [dedupSkillsGo]
  | cons skill rest ih =>
    intro seen
    by_cases h : pyLower skill ≠ "" ∧ memStr (pyLower skill) seen = false ∧
        1 < pyLen skill
    · rw [dedupSkillsGo, if_pos h]
      refine List.Pairwise.cons ?_ (ih _)
      intro b hb hEq
      have hns := dedupSkillsGo_not_seen rest (pyLower skill :: seen) b hb
      exact (memStr_cons_false hns).1 hEq.symm
    · rw [dedupSkillsGo, if_neg h]
      exact ih _

/-! ## Claim theorems -/

/-- C1.  On the three-line chat message of the end-to-end example the
simple line-based extractor returns name Asha Rao, email
asha.rao@example.com and the sentinel for phone, experience, education
and location, and the validator accepts the record with exactly
experience, education and location missing among the optional fields;
but the skills field is the whole third line, label included, because
the labelled skills branch is shadowed by the unconditional continue of
the bare-phone branch while the phone is still missing, so the
comma-fallback claims the line verbatim. -/
theorem c1_simple_extraction_actual :
    extract_simple_cv_data
        "Name: Asha Rao\nEmail: asha.rao@example.com\nSkills: Python, SQL, Communication"
      = some ashaRecord ∧
    ashaRecord.skills = "Skills: Python, SQL, Communication" ∧
    validate_cv_data ashaRecord = (true, [], true) ∧
    missingOptionalFields ashaRecord = ["experience", "education", "location"] :=
  ⟨rfl, rfl, rfl, rfl⟩

/-- C2 (amended).  The skills cleaning of the AI path,
_validate_and_clean_data, emits a list of entries that are pairwise
distinct under case-insensitive comparison, for every input skills
string. -/
theorem c2_skills_ai_no_ci_dups (skills : String) :
    (validateCleanSkillsEntries skills).Pairwise
      (fun a b => pyLower a ≠ pyLower b) := by
  unfold validateCleanSkillsEntries
  exact dedupSkillsGo_pairwise _ _

/-- C2 (counterexample).  The fallback path deduplicates skills only by
exact string equality: on the text holding Python on one line and
python on the next, the produced skills string contains both spellings,
two entries that are equal under case-insensitive comparison. -/
theorem c2_fallback_ci_dup :
    fallbackSkills "Python\npython" = "Python, python" ∧
    pyLower "Python" = pyLower "python" ∧
    ¬ (((pySplitChar ',' (fallbackSkills "Python\npython")).map pyStrip).Pairwise
        (fun a b => pyLower a ≠ pyLower b)) :=
  ⟨rfl, rfl, by decide⟩

/-- C3 (amended).  The phone normalizer of _validate_and_clean_data
only deletes characters: every character of its output is a digit or a
plus sign.  It does not collapse pluses or force them to the front;
that canonicalisation happens later, in append_cv_data. -/
theorem c3_phone_digits_plus_only (s : String) (c : Char)
    (hc : c ∈ (validateClean_phone s).data) : c.isDigit = true ∨ c = '+' := by
  have h : c ∈ s.data.filter (fun c => c.isDigit || c = '+') := hc
  have h2 := (List.mem_filter.mp h).2
  simpa using h2

/-- C3 (witness).  The character 1 occurs in a cleaned phone and is a
digit or a plus. -/
theorem c3_phone_witness : ('1'.isDigit = true ∨ '1' = '+') :=
  c3_phone_digits_plus_only "+1 (2)" '1' (by decide)

/-- C3 (counterexample).  On the input 12+34 the normalizer of
_validate_and_clean_data returns 12+34 unchanged, which does not match
the claimed anchored plus-then-digits shape: the interior plus is
neither removed nor moved. -/
theorem c3_phone_not_canonical :
    validateClean_phone "12+34" = "12+34" ∧
    specPhonePattern "12+34" = false :=
  ⟨rfl, rfl⟩

/-- C4.  With a stored row for a@x.com and a new submission with email
A@X.COM and a different phone, check_duplicate reports a duplicate at
row 2 with the stored fields (email compared case-insensitively), and
append_cv_data deletes the old row and appends the new one with Status
Updated, returning row number 2 and the update flag. -/
theorem c4_duplicate_update :
    check_duplicate (.ok storedSheet) "A@X.COM" "9998887777" =
      (true, some 2,
        some ["2024-01-01T00:00:00", "Old Name", "a@x.com", "1112223333",
              "Old Skills", "Old Exp", "Old Edu", "Old Loc", "+10000000000", "New"]) ∧
    append_cv_data (.ok storedSheet) storedSheet newSubmission
        "whatsapp:+14155551212" "2025-01-01T00:00:00" =
      ([sheetHeaders,
        ["2025-01-01T00:00:00", "New Name", "A@X.COM", "9998887777",
         "Sk", "Ex", "Ed", "Loc", "+14155551212", "Updated"]], (2, true)) :=
  ⟨rfl, rfl⟩

/-- C5.  The validator is a total function returning a structured
triple: a record whose name is the sentinel or empty is invalid with
missing name regardless of the other fields, and a record with a name
set, sentinel email and a phone shorter than 10 characters is invalid
with missing email-or-phone. -/
theorem c5_validator_mandatory (r : CVData) :
    ((r.name = "N/A" ∨ r.name = "") →
      validate_cv_data r = (false, ["name"], false)) ∧
    (hasName r = true → r.email = "N/A" → pyLen r.phone < 10 →
      validate_cv_data r = (false, ["email or phone"], false)) := by
  constructor
  · intro h
    have hn : hasName r = false := by
      rcases h with h | h <;> simp [hasName, h]
    simp [validate_cv_data, hn]
  · intro hn he hp
    have hE : hasEmail r = false := by simp [hasEmail, he]
    have hlen : pyLen (pyStrip r.phone) < 10 :=
      Nat.lt_of_le_of_lt (pyStripL_length_le r.phone.data) hp
    have hP : hasPhone r = false := by
      have hd : decide (10 ≤ pyLen (pyStrip r.phone)) = false :=
        decide_eq_false (by omega)
      simp [hasPhone, hd]
    simp [validate_cv_data, hn, hE, hP]

/-- C5 (witness).  The validator evaluated on a sentinel-name record
and on a short-phone record. -/
theorem c5_validator_witness :
    validate_cv_data ⟨"N/A", "e@x.com", "12345", "N/A", "N/A", "N/A", "N/A"⟩ =
      (false, ["name"], false) ∧
    validate_cv_data ⟨"Asha Rao", "N/A", "12345", "N/A", "N/A", "N/A", "N/A"⟩ =
      (false, ["email or phone"], false) :=
  ⟨(c5_validator_mandatory _).1 (Or.inl rfl),
   (c5_validator_mandatory _).2 (by decide) rfl (by decide)⟩

/-- C6 (counterexample).  The experience normalizer is not idempotent:
an en-dash year range is rewritten to a spaced hyphen on a first pass
and only parenthesised on a second, so the second application changes
the result of the first. -/
theorem c6_not_idempotent :
    normalize_experience_format "2020–2024" = some "2020 - 2024" ∧
    (normalize_experience_format "2020–2024").bind normalize_experience_format =
      some "(2020 - 2024)" ∧
    (normalize_experience_format "2020–2024").bind normalize_experience_format ≠
      normalize_experience_format "2020–2024" :=
  ⟨rfl, rfl, by decide⟩

/-- C6 (amended).  On already-normalized experience strings, with dates
parenthesised and dashes already spaced hyphens, the normalizer is a
fixed point, both for a single position and for a comma-separated pair
of positions ending in Present. -/
theorem c6_fixed_on_normalized :
    normalize_experience_format "Company - Title (Jan 2025 - May 2025)" =
      some "Company - Title (Jan 2025 - May 2025)" ∧
    normalize_experience_format
        "A - B (Jan 2020 - Feb 2021), C - D (Mar 2021 - Present)" =
      some "A - B (Jan 2020 - Feb 2021), C - D (Mar 2021 - Present)" :=
  ⟨rfl, rfl⟩

/-- C7.  The numeric date-range rewrite: the spec example
07/01/2025-06/05/2025 becomes (Jan 2025 - May 2025), and a second
instance shows the month abbreviation is taken from the table at the
middle two-digit component of each date. -/
theorem c7_date_range_rewrite :
    normalize_experience_format "07/01/2025-06/05/2025" =
      some "(Jan 2025 - May 2025)" ∧
    normalize_experience_format "01/12/2020-02/03/2021" =
      some "(Dec 2020 - Mar 2021)" :=
  ⟨rfl, rfl⟩

/-- C8 (counterexample).  The token floor of extract_name_from_email
keeps tokens of length at least 2, so the two-character local part of
ab@x.com survives and the function returns Ab, not the empty string the
claim states. -/
theorem c8_two_char_token :
    extract_name_from_email "ab@x.com" = "Ab" ∧
    extract_name_from_email "ab@x.com" ≠ "" :=
  ⟨rfl, by decide⟩

/-- C8 (amended).  extract_name_from_email drops local-part tokens
strictly shorter than 2 characters and title-cases and joins the rest:
john.doe123@gmail.com gives John Doe, ab@x.com gives Ab because the
two-character token passes the floor, and a@x.com gives the empty
string because its single-character token is dropped. -/
theorem c8_name_from_email :
    extract_name_from_email "john.doe123@gmail.com" = "John Doe" ∧
    extract_name_from_email "ab@x.com" = "Ab" ∧
    extract_name_from_email "a@x.com" = "" :=
  ⟨rfl, rfl, rfl⟩

/-- C9 (counterexample).  On the message hello the simple extractor
returns a record whose name is the sentinel, and the webhook text
branch still uses that record: the AI extractor, stubbed here to return
a distinguishable marker record, is not consulted: the handler does not
fall back when the name is the sentinel. -/
theorem c9_no_fallback_on_sentinel :
    extract_simple_cv_data "hello" = some helloRecord ∧
    helloRecord.name = "N/A" ∧
    webhookCvData (fun _ => some aiMarker) "hello" = some helloRecord ∧
    webhookCvData (fun _ => some aiMarker) "hello" ≠ some aiMarker :=
  ⟨rfl, rfl, rfl, by decide⟩

/-- C9 (amended).  The webhook text branch falls back to the full
extractor only when the simple pass returns no record at all: whenever
the simple pass returns a record, sentinel name or not, that record is
the one processed, independent of the AI extractor. -/
theorem c9_simple_record_used (ai : String → Option CVData) (text : String)
    (r : CVData) (h : extract_simple_cv_data text = some r) :
    webhookCvData ai text = some r := by
  simp [webhookCvData, h]

/-- C9 (witness).  The amended statement applied to the message hello
with an AI stub returning nothing. -/
theorem c9_simple_record_used_witness :
    webhookCvData (fun _ => none) "hello" = some helloRecord :=
  c9_simple_record_used _ _ _ rfl

/-- C10.  A failed worksheet read makes check_duplicate report
not-duplicate for every email and phone, and append_cv_data then
appends the new row with Status New while the old row with the same
email identity stays in place: after the read failure the sheet holds
two rows whose stored emails are both a@x.com up to case. -/
theorem c10_read_failure_degrades :
    (∀ email phone : String,
      check_duplicate (.error ()) email phone = (false, none, none)) ∧
    append_cv_data (.error ()) storedSheet newSubmission
        "whatsapp:+14155551212" "2025-01-01T00:00:00" =
      ([sheetHeaders,
        ["2024-01-01T00:00:00", "Old Name", "a@x.com", "1112223333",
         "Old Skills", "Old Exp", "Old Edu", "Old Loc", "+10000000000", "New"],
        ["2025-01-01T00:00:00", "New Name", "A@X.COM", "9998887777",
         "Sk", "Ex", "Ed", "Loc", "+14155551212", "New"]], (3, false)) ∧
    ((append_cv_data (.error ()) storedSheet newSubmission
        "whatsapp:+14155551212" "2025-01-01T00:00:00").1.map
      (fun row => pyLower (pyStrip (row.getD 2 "")))) =
      ["email", "a@x.com", "a@x.com"] :=
  ⟨fun _ _ => rfl, rfl, rfl⟩

end CVMS
